import Mathlib

/-
A shallow Lean embedding of the mak_forum server core: the storage layer
(`DatabaseStorage` in server/storage.ts), the session/ban and CSRF middleware
(server/routes.ts, server/csrf.ts) and the route handlers, together with
theorems about their behaviour.

Strings are modelled as Lean `String`/`List Char`; timestamps as a logical
`Nat` clock passed explicitly where the source calls `new Date()`; SQL
`integer` counters as `Int`; the generated identity column as a fresh id
computed from the existing rows.
-/

namespace Forum

/-! JavaScript string primitives used by `sanitizeInput` (server/routes.ts). -/

/-- Global single-character replacement: `s.replace(/c/g, rep)` over the
character sequence of a JavaScript string. -/
def replaceAll (c : Char) (rep : List Char) : List Char → List Char
  | [] => []
  | x :: xs => (if x = c then rep else [x]) ++ replaceAll c rep xs

/-- The whitespace code points stripped by JavaScript `String.prototype.trim`
(the ECMAScript WhiteSpace and LineTerminator sets, common code points). -/
def isJsWhitespace (c : Char) : Bool :=
  c = ' ' || c = '\t' || c = '\n' || c = '\r' || c = '\x0b' || c = '\x0c' ||
  c = ' ' || c = ' ' || c = ' ' || c = '﻿'

/-- Leading-whitespace strip, the left half of JavaScript `trim`. -/
def trimLeft (l : List Char) : List Char := l.dropWhile isJsWhitespace

/-- Trailing-whitespace strip, the right half of JavaScript `trim`. -/
def trimRight (l : List Char) : List Char := (l.reverse.dropWhile isJsWhitespace).reverse

/-- JavaScript `String.prototype.trim`. -/
def jsTrim (l : List Char) : List Char := trimRight (trimLeft l)

/-- The four chained `.replace` calls of `sanitizeInput` (server/routes.ts
lines 73-79): escape `<`, `>`, `"` and `'` in that order. -/
def escapeChars (l : List Char) : List Char :=
  replaceAll '\'' ['&', '#', 'x', '2', '7', ';']
    (replaceAll '"' ['&', 'q', 'u', 'o', 't', ';']
      (replaceAll '>' ['&', 'g', 't', ';']
        (replaceAll '<' ['&', 'l', 't', ';'] l)))

/-- `sanitizeInput` (server/routes.ts): the escape chain followed by `.trim()`. -/
def sanitizeInput (l : List Char) : List Char := jsTrim (escapeChars l)

/-- `sanitizeInput` at the `String` level. -/
def sanitizeInputStr (s : String) : String := String.mk (sanitizeInput s.data)

/-- JavaScript `trim` at the `String` level. -/
def jsTrimStr (s : String) : String := String.mk (jsTrim s.data)

theorem mem_replaceAll {c : Char} {rep l : List Char} {x : Char}
    (hx : x ∈ replaceAll c rep l) : x ∈ rep ∨ (x ∈ l ∧ x ≠ c) := by
  induction l with
  | nil => simp [replaceAll] at hx
  | cons a as ih =>
    simp only [replaceAll, List.mem_append] at hx
    rcases hx with h | h
    · by_cases hac : a = c
      · rw [if_pos hac] at h
        exact Or.inl h
      · rw [if_neg hac] at h
        simp only [List.mem_singleton] at h
        refine Or.inr ⟨?_, ?_⟩
        · rw [h]; exact List.mem_cons_self a as
        · rw [h]; exact hac
    · rcases ih h with h1 | ⟨h2, h3⟩
      · exact Or.inl h1
      · exact Or.inr ⟨List.mem_cons_of_mem a h2, h3⟩

theorem replaceAll_eq_self {c : Char} {rep : List Char} {l : List Char}
    (h : c ∉ l) : replaceAll c rep l = l := by
  induction l with
  | nil => rfl
  | cons a as ih =>
    have hac : ¬(a = c) := fun hh => h (by simp [hh])
    have htail : c ∉ as := fun hm => h (List.mem_cons_of_mem a hm)
    simp [replaceAll, if_neg hac, ih htail]

theorem not_mem_replaceAll {c : Char} {rep : List Char} (l : List Char) (hc : c ∉ rep) :
    c ∉ replaceAll c rep l := by
  intro h
  rcases mem_replaceAll h with h1 | ⟨_, h3⟩
  · exact hc h1
  · exact h3 rfl

theorem not_mem_replaceAll_of {c d : Char} {rep l : List Char}
    (hd : d ∉ rep) (hl : d ∉ l) : d ∉ replaceAll c rep l := by
  intro h
  rcases mem_replaceAll h with h1 | ⟨h2, _⟩
  · exact hd h1
  · exact hl h2

theorem dropWhile_idem {α : Type} (p : α → Bool) (l : List α) :
    (l.dropWhile p).dropWhile p = l.dropWhile p := by
  induction l with
  | nil => rfl
  | cons a as ih =>
    by_cases h : p a
    · simp [List.dropWhile_cons, h, ih]
    · simp [List.dropWhile_cons, h]

theorem length_dropWhile_le {α : Type} (p : α → Bool) (l : List α) :
    (l.dropWhile p).length ≤ l.length := by
  induction l with
  | nil => simp
  | cons a as ih =>
    by_cases h : p a
    · simp only [List.dropWhile_cons, h, if_true]
      exact Nat.le_succ_of_le ih
    · simp [List.dropWhile_cons, h]

theorem trimRight_append (l : List Char) :
    trimRight l ++ (l.reverse.takeWhile isJsWhitespace).reverse = l := by
  have h := List.takeWhile_append_dropWhile (p := isJsWhitespace) (l := l.reverse)
  have h2 := congrArg List.reverse h
  rw [List.reverse_append, List.reverse_reverse] at h2
  exact h2

theorem dropWhile_prefix_fixed {α : Type} {p : α → Bool} {x y t : List α}
    (hx : x.dropWhile p = x) (hpre : y ++ t = x) : y.dropWhile p = y := by
  subst hpre
  cases y with
  | nil => rfl
  | cons a ys =>
    have ha : p a = false := by
      by_contra hcontra
      have ha' : p a = true := by
        revert hcontra
        cases p a <;> simp
      rw [List.cons_append, List.dropWhile_cons, ha', if_pos rfl] at hx
      have hlen := length_dropWhile_le p (ys ++ t)
      rw [hx] at hlen
      simp at hlen
    simp [List.dropWhile_cons, ha]

theorem trimLeft_trimRight_of_fixed {x : List Char} (hx : trimLeft x = x) :
    trimLeft (trimRight x) = trimRight x :=
  dropWhile_prefix_fixed hx (trimRight_append x)

theorem trimLeft_idem (l : List Char) : trimLeft (trimLeft l) = trimLeft l :=
  dropWhile_idem _ _

theorem trimRight_idem (l : List Char) : trimRight (trimRight l) = trimRight l := by
  simp [trimRight, List.reverse_reverse, dropWhile_idem]

theorem jsTrim_idem (l : List Char) : jsTrim (jsTrim l) = jsTrim l := by
  unfold jsTrim
  rw [trimLeft_trimRight_of_fixed (trimLeft_idem l), trimRight_idem]

theorem mem_of_mem_trimRight {x : Char} {l : List Char} (h : x ∈ trimRight l) : x ∈ l := by
  have hsplit := trimRight_append l
  rw [← hsplit]
  exact List.mem_append_left _ h

theorem mem_of_mem_trimLeft {x : Char} {l : List Char} (h : x ∈ trimLeft l) : x ∈ l := by
  have hsplit := List.takeWhile_append_dropWhile (p := isJsWhitespace) (l := l)
  rw [← hsplit]
  exact List.mem_append_right _ h

theorem mem_of_mem_jsTrim {x : Char} {l : List Char} (h : x ∈ jsTrim l) : x ∈ l :=
  mem_of_mem_trimLeft (mem_of_mem_trimRight h)

theorem lt_not_mem_escape (l : List Char) : '<' ∉ escapeChars l := by
  unfold escapeChars
  refine not_mem_replaceAll_of (by decide) ?_
  refine not_mem_replaceAll_of (by decide) ?_
  refine not_mem_replaceAll_of (by decide) ?_
  exact not_mem_replaceAll l (by decide)

theorem gt_not_mem_escape (l : List Char) : '>' ∉ escapeChars l := by
  unfold escapeChars
  refine not_mem_replaceAll_of (by decide) ?_
  refine not_mem_replaceAll_of (by decide) ?_
  exact not_mem_replaceAll _ (by decide)

theorem quot_not_mem_escape (l : List Char) : '"' ∉ escapeChars l := by
  unfold escapeChars
  refine not_mem_replaceAll_of (by decide) ?_
  exact not_mem_replaceAll _ (by decide)

theorem apos_not_mem_escape (l : List Char) : '\'' ∉ escapeChars l := by
  unfold escapeChars
  exact not_mem_replaceAll _ (by decide)

theorem escapeChars_eq_self {m : List Char} (h1 : '<' ∉ m) (h2 : '>' ∉ m)
    (h3 : '"' ∉ m) (h4 : '\'' ∉ m) : escapeChars m = m := by
  unfold escapeChars
  rw [replaceAll_eq_self h1, replaceAll_eq_self h2, replaceAll_eq_self h3,
    replaceAll_eq_self h4]

theorem escapeChars_eq_self_of_trim (l : List Char) :
    escapeChars (jsTrim (escapeChars l)) = jsTrim (escapeChars l) :=
  escapeChars_eq_self
    (fun h => lt_not_mem_escape l (mem_of_mem_jsTrim h))
    (fun h => gt_not_mem_escape l (mem_of_mem_jsTrim h))
    (fun h => quot_not_mem_escape l (mem_of_mem_jsTrim h))
    (fun h => apos_not_mem_escape l (mem_of_mem_jsTrim h))

theorem sanitizeInput_idem (l : List Char) :
    sanitizeInput (sanitizeInput l) = sanitizeInput l := by
  unfold sanitizeInput
  rw [escapeChars_eq_self_of_trim, jsTrim_idem]

/-- C9: the input-sanitization function is idempotent — applying
`sanitizeInput` twice to any string gives the same result as applying it
once, since its output contains none of the characters it replaces and
trimming is idempotent. -/
theorem sanitizeInputStr_idem (s : String) :
    sanitizeInputStr (sanitizeInputStr s) = sanitizeInputStr s :=
  congrArg String.mk (sanitizeInput_idem s.data)

/-! The data model (shared/schema.ts). -/

/-- The `role` enum of shared/schema.ts. -/
inductive Role where
  | admin
  | moderator
  | member
  | new_user
deriving DecidableEq

/-- The `invite_status` enum of shared/schema.ts. -/
inductive InviteStatus where
  | pending
  | approved
  | rejected
deriving DecidableEq

/-- A row of the `users` table. -/
structure User where
  id : Nat
  username : String
  email : String
  password : String
  role : Role
  avatar : Option String
  bio : Option String
  postCount : Int
  threadCount : Int
  isBanned : Bool
  banReason : Option String
  hasPrivateAccess : Bool
  createdAt : Nat
  lastActive : Nat
deriving DecidableEq

/-- A row of the `categories` table. -/
structure Category where
  id : Nat
  name : String
  description : Option String
  slug : String
  icon : Option String
  sortOrder : Int
  isPrivate : Bool
  threadCount : Int
  postCount : Int
deriving DecidableEq

/-- A row of the `threads` table. -/
structure Thread where
  id : Nat
  title : String
  content : String
  categoryId : Nat
  authorId : Nat
  isPinned : Bool
  isLocked : Bool
  viewCount : Int
  replyCount : Int
  lastReplyAt : Option Nat
  lastReplyById : Option Nat
  createdAt : Nat
  updatedAt : Nat
deriving DecidableEq

/-- A row of the `posts` table. -/
structure Post where
  id : Nat
  content : String
  threadId : Nat
  authorId : Nat
  parentId : Option Nat
  isEdited : Bool
  createdAt : Nat
  updatedAt : Nat
deriving DecidableEq

/-- A row of the `private_invites` table. -/
structure PrivateInvite where
  id : Nat
  userId : Nat
  reason : String
  status : InviteStatus
  reviewedById : Option Nat
  reviewedAt : Option Nat
  createdAt : Nat
deriving DecidableEq

/-- A row of the `moderation_logs` table. The action kind is kept as the
string the source passes to `createModerationLog`. -/
structure ModerationLog where
  id : Nat
  moderatorId : Nat
  targetUserId : Option Nat
  action : String
  reason : Option String
  details : Option String
  createdAt : Nat
deriving DecidableEq

/-- The persistent state reachable through `DatabaseStorage`. -/
structure DB where
  users : List User
  categories : List Category
  threads : List Thread
  posts : List Post
  privateInvites : List PrivateInvite
  moderationLogs : List ModerationLog
deriving DecidableEq

/-- A fresh value of the generated-always-as-identity column: one more than
the largest id in use. -/
def nextId (ids : List Nat) : Nat := ids.foldl max 0 + 1

/-! The storage layer (`DatabaseStorage`, server/storage.ts). Each method
returns the updated database; the logical clock `now` stands for the
`new Date()` calls. -/

/-- `getUser`. -/
def getUser (db : DB) (id : Nat) : Option User :=
  db.users.find? (fun u => u.id == id)

/-- `getThread` (the claims only use the row itself; the `category` relation
is looked up separately with `threadCategory`). -/
def getThread (db : DB) (id : Nat) : Option Thread :=
  db.threads.find? (fun t => t.id == id)

/-- The `category` relation of a thread, as loaded by `getThread`. -/
def threadCategory (db : DB) (t : Thread) : Option Category :=
  db.categories.find? (fun c => c.id == t.categoryId)

/-- `updateCategoryStats`: recount the category's threads, and the posts
whose thread belongs to the category, and store both counters. -/
def updateCategoryStats (db : DB) (id : Nat) : DB :=
  let tc : Int := ((db.threads.filter (fun t => t.categoryId == id)).length : Int)
  let pc : Int := ((db.posts.filter (fun p =>
      (db.threads.find? (fun t => t.id == p.threadId)).any
        (fun t => t.categoryId == id))).length : Int)
  { db with categories := db.categories.map (fun (c : Category) =>
      if c.id == id then { c with threadCount := tc, postCount := pc } else c) }

/-- The insert shape accepted by `createThread` (`InsertThread`). -/
structure InsertThread where
  title : String
  content : String
  categoryId : Nat
  authorId : Nat

/-- `createThread`: insert the thread, increment the author's `threadCount`,
then recount the owning category's statistics. -/
def createThread (db : DB) (t : InsertThread) (now : Nat) : Thread × DB :=
  let result : Thread :=
    { id := nextId (db.threads.map (fun x => x.id)), title := t.title,
      content := t.content, categoryId := t.categoryId, authorId := t.authorId,
      isPinned := false, isLocked := false, viewCount := 0, replyCount := 0,
      lastReplyAt := none, lastReplyById := none, createdAt := now, updatedAt := now }
  let db1 := { db with threads := db.threads ++ [result] }
  let db2 := { db1 with users := db1.users.map (fun (u : User) =>
      if u.id == t.authorId then { u with threadCount := u.threadCount + 1 } else u) }
  (result, updateCategoryStats db2 t.categoryId)

/-- The insert shape accepted by `createPost` (`InsertPost`). -/
structure InsertPost where
  content : String
  threadId : Nat
  authorId : Nat
  parentId : Option Nat

/-- `createPost`: insert the post; set the thread's `replyCount`,
`lastReplyAt` and `lastReplyById`; increment the author's `postCount`; then,
if the thread exists, recount the owning category's statistics. -/
def createPost (db : DB) (p : InsertPost) (now : Nat) : Post × DB :=
  let result : Post :=
    { id := nextId (db.posts.map (fun x => x.id)), content := p.content,
      threadId := p.threadId, authorId := p.authorId, parentId := p.parentId,
      isEdited := false, createdAt := now, updatedAt := now }
  let db1 := { db with posts := db.posts ++ [result] }
  let db2 := { db1 with threads := db1.threads.map (fun (t : Thread) =>
      if t.id == p.threadId then
        { t with replyCount := t.replyCount + 1, lastReplyAt := some now,
                 lastReplyById := some p.authorId }
      else t) }
  let db3 := { db2 with users := db2.users.map (fun (u : User) =>
      if u.id == p.authorId then { u with postCount := u.postCount + 1 } else u) }
  match db3.threads.find? (fun t => t.id == p.threadId) with
  | some t => (result, updateCategoryStats db3 t.categoryId)
  | none => (result, db3)

/-- `deletePost`: if the post exists, remove it, decrement its thread's
`replyCount`, and recount the owning category's statistics. The thread's
`lastReplyAt`/`lastReplyById` are not touched. -/
def deletePost (db : DB) (id : Nat) : DB :=
  match db.posts.find? (fun p => p.id == id) with
  | none => db
  | some post =>
    let db1 := { db with posts := db.posts.filter (fun p => !(p.id == id)) }
    let db2 := { db1 with threads := db1.threads.map (fun (t : Thread) =>
        if t.id == post.threadId then { t with replyCount := t.replyCount - 1 } else t) }
    match db2.threads.find? (fun t => t.id == post.threadId) with
    | some t => updateCategoryStats db2 t.categoryId
    | none => db2

/-- `deleteThread`: if the thread exists, delete it — the schema's
`onDelete: cascade` on `posts.threadId` also removes the thread's posts —
then recount the owning category's statistics. -/
def deleteThread (db : DB) (id : Nat) : DB :=
  match db.threads.find? (fun t => t.id == id) with
  | none => db
  | some thread =>
    let db1 := { db with threads := db.threads.filter (fun t => !(t.id == id)),
                         posts := db.posts.filter (fun p => !(p.threadId == id)) }
    updateCategoryStats db1 thread.categoryId

/-- The accumulator step behind `getPrivateInviteByUser`: keep the invite
with the latest `createdAt` (`orderBy desc(createdAt)`, first row). -/
def pickLater (acc : Option PrivateInvite) (i : PrivateInvite) : Option PrivateInvite :=
  match acc with
  | none => some i
  | some j => if j.createdAt < i.createdAt then some i else some j

/-- The row with the maximal `createdAt`, the one `orderBy desc(createdAt)`
places first. -/
def latestByCreatedAt (l : List PrivateInvite) : Option PrivateInvite :=
  l.foldl pickLater none

/-- `getPrivateInviteByUser`: the user's most recent private invite. -/
def getPrivateInviteByUser (db : DB) (userId : Nat) : Option PrivateInvite :=
  latestByCreatedAt (db.privateInvites.filter (fun i => i.userId == userId))

/-- `createPrivateInvite`: insert a new invite; the `status` column defaults
to `pending` (shared/schema.ts). -/
def createPrivateInvite (db : DB) (userId : Nat) (reason : String) (now : Nat) :
    PrivateInvite × DB :=
  let result : PrivateInvite :=
    { id := nextId (db.privateInvites.map (fun x => x.id)), userId := userId,
      reason := reason, status := InviteStatus.pending, reviewedById := none,
      reviewedAt := none, createdAt := now }
  (result, { db with privateInvites := db.privateInvites ++ [result] })

/-- `updatePrivateInvite`: update the row with the given id — whatever its
current status — setting `status`, `reviewedById` and `reviewedAt`, and
return it; when the status written is `approved`, additionally set the
requesting user's `hasPrivateAccess` to true. -/
def updatePrivateInvite (db : DB) (id : Nat) (status : InviteStatus)
    (reviewerId : Nat) (now : Nat) : Option PrivateInvite × DB :=
  match db.privateInvites.find? (fun i => i.id == id) with
  | none => (none, db)
  | some inv =>
    let result := { inv with status := status, reviewedById := some reviewerId,
                             reviewedAt := some now }
    let db1 := { db with privateInvites := db.privateInvites.map (fun (i : PrivateInvite) =>
        if i.id == id then result else i) }
    let db2 :=
      if status = InviteStatus.approved then
        { db1 with users := db1.users.map (fun (u : User) =>
            if u.id == result.userId then { u with hasPrivateAccess := true } else u) }
      else db1
    (some result, db2)

/-- The insert shape accepted by `createModerationLog`. -/
structure InsertModerationLog where
  moderatorId : Nat
  targetUserId : Option Nat
  action : String
  reason : Option String
  details : Option String

/-- `createModerationLog`: append an entry to the moderation log. -/
def createModerationLog (db : DB) (entry : InsertModerationLog) (now : Nat) : DB :=
  { db with moderationLogs := db.moderationLogs ++
      [{ id := nextId (db.moderationLogs.map (fun x => x.id)),
         moderatorId := entry.moderatorId, targetUserId := entry.targetUserId,
         action := entry.action, reason := entry.reason, details := entry.details,
         createdAt := now }] }

/-! The middleware (server/routes.ts, server/csrf.ts). -/

/-- The express session data used by the server: the bound user id and the
per-session CSRF token (both absent on a fresh session). -/
structure SessionData where
  userId : Option Nat
  csrfToken : Option String
deriving DecidableEq

/-- The state an express session is left in after `req.session.destroy`:
subsequent requests see a fresh empty session. -/
def emptySession : SessionData := { userId := none, csrfToken := none }

/-- `checkBanned` (server/routes.ts lines 61-70): when the session is bound
to a user that exists and is banned, destroy the session and answer 403;
otherwise pass the request through unchanged. -/
def checkBanned (db : DB) (sess : SessionData) : SessionData × Option (Nat × String) :=
  match sess.userId with
  | some uid =>
    match getUser db uid with
    | some u =>
      if u.isBanned then (emptySession, some (403, "Votre compte a été banni"))
      else (sess, none)
    | none => (sess, none)
  | none => (sess, none)

/-- The session after the lazy token issuance at the top of
`csrfProtection`: a token is generated (`fresh`) only if none is stored. -/
def sessionWithToken (sess : SessionData) (fresh : String) : SessionData :=
  match sess.csrfToken with
  | none => { sess with csrfToken := some fresh }
  | some _ => sess

/-- `csrfProtection` (server/csrf.ts): issue a token if absent; skip the
check for GET/HEAD/OPTIONS; otherwise fail 403 unless the `x-csrf-token`
header is present, non-empty (a JavaScript truthiness check) and equal to
the session's token. `fresh` stands for the `generateToken()` randomness. -/
def csrfProtection (fresh : String) (method : String) (headerToken : Option String)
    (sess : SessionData) : SessionData × Option (Nat × String) :=
  let sess1 := sessionWithToken sess fresh
  if ["GET", "HEAD", "OPTIONS"].contains method then (sess1, none)
  else
    match headerToken with
    | none => (sess1, some (403, "Token CSRF invalide"))
    | some t =>
      if t = "" then (sess1, some (403, "Token CSRF invalide"))
      else if some t = sess1.csrfToken then (sess1, none)
      else (sess1, some (403, "Token CSRF invalide"))

/-- The result of running a request through the middleware stack. -/
inductive PipelineResult (α : Type) where
  | early (code : Nat) (message : String)
  | handled (value : α)
deriving DecidableEq

/-- The middleware order installed by `registerRoutes` (server/routes.ts
lines 106-116) for an API request: `checkBanned`, then `csrfProtection`,
then the route handler. A middleware that answers ends the request before
the handler runs. -/
def apiPipeline {α : Type} (db : DB) (sess : SessionData) (fresh : String)
    (method : String) (headerToken : Option String)
    (handler : DB → SessionData → α) : PipelineResult α × SessionData :=
  match checkBanned db sess with
  | (sess1, some resp) => (PipelineResult.early resp.1 resp.2, sess1)
  | (sess1, none) =>
    match csrfProtection fresh method headerToken sess1 with
    | (sess2, some resp) => (PipelineResult.early resp.1 resp.2, sess2)
    | (sess2, none) => (PipelineResult.handled (handler db sess2), sess2)

/-! The route handlers the claims are about (server/routes.ts). Each handler
takes the session's user id (`requireAuth`/`requireRole` read it) and
returns the HTTP outcome together with the updated database. -/

/-- A route's outcome: a success status with its JSON value, or an error
status with its message. -/
inductive RouteOutcome (α : Type) where
  | success (code : Nat) (value : α)
  | failure (code : Nat) (message : String)
deriving DecidableEq

/-- The `requireRole(...roles)` middleware: 401 without a session user id,
403 when the user is missing or the role is not among `roles`. -/
def requireRole (db : DB) (sessionUserId : Option Nat) (roles : List Role) :
    Option (Nat × String) :=
  match sessionUserId with
  | none => some (401, "Authentification requise")
  | some uid =>
    match getUser db uid with
    | none => some (403, "Permissions insuffisantes")
    | some u =>
      if roles.contains u.role then none
      else some (403, "Permissions insuffisantes")

/-- `POST /api/threads/:id/posts`: requireAuth, role gate for `new_user`,
thread existence, lock check, private-category check, non-empty content,
then `storage.createPost` on the sanitized content. -/
def createPostRoute (db : DB) (sessionUserId : Option Nat) (threadId : Nat)
    (content : String) (now : Nat) : RouteOutcome Post × DB :=
  match sessionUserId with
  | none => (RouteOutcome.failure 401 "Authentification requise", db)
  | some uid =>
    match getUser db uid with
    | none =>
      (RouteOutcome.failure 403 "Les nouveaux utilisateurs ne peuvent pas répondre", db)
    | some user =>
      if user.role = Role.new_user then
        (RouteOutcome.failure 403 "Les nouveaux utilisateurs ne peuvent pas répondre", db)
      else
        match getThread db threadId with
        | none => (RouteOutcome.failure 404 "Discussion introuvable", db)
        | some thread =>
          if thread.isLocked then
            (RouteOutcome.failure 403 "Cette discussion est verrouillée", db)
          else if (threadCategory db thread).any (fun c => c.isPrivate)
              && !user.hasPrivateAccess then
            (RouteOutcome.failure 403 "Accès non autorisé", db)
          else if (jsTrimStr content).length < 1 then
            (RouteOutcome.failure 400 "Le contenu est requis", db)
          else
            let r := createPost db
              { content := sanitizeInputStr content, threadId := threadId,
                authorId := user.id, parentId := none } now
            (RouteOutcome.success 201 r.1, r.2)

/-- `DELETE /api/posts/:id`: requireRole(admin, moderator), then
`storage.deletePost` — which silently does nothing when the post is absent —
then a moderation-log entry, then 200. -/
def deletePostRoute (db : DB) (sessionUserId : Option Nat) (postId : Nat)
    (now : Nat) : RouteOutcome String × DB :=
  match requireRole db sessionUserId [Role.admin, Role.moderator] with
  | some resp => (RouteOutcome.failure resp.1 resp.2, db)
  | none =>
    let db1 := deletePost db postId
    let db2 := createModerationLog db1
      { moderatorId := sessionUserId.getD 0, targetUserId := none,
        action := "delete_post", reason := none,
        details := some ("Post ID: " ++ toString postId) } now
    (RouteOutcome.success 200 "Message supprimé", db2)

/-- `POST /api/private-invites`: requireAuth, grant check, pending check on
the user's most recent request, 50-character minimum on the trimmed reason,
then `storage.createPrivateInvite` on the sanitized reason. -/
def submitInviteRoute (db : DB) (sessionUserId : Option Nat) (reason : String)
    (now : Nat) : RouteOutcome PrivateInvite × DB :=
  match sessionUserId with
  | none => (RouteOutcome.failure 401 "Authentification requise", db)
  | some uid =>
    match getUser db uid with
    | none => (RouteOutcome.failure 401 "Utilisateur introuvable", db)
    | some user =>
      if user.hasPrivateAccess then
        (RouteOutcome.failure 400 "Vous avez déjà accès", db)
      else if (getPrivateInviteByUser db user.id).any
          (fun e => e.status == InviteStatus.pending) then
        (RouteOutcome.failure 400 "Vous avez déjà une demande en cours", db)
      else if (jsTrimStr reason).length < 50 then
        (RouteOutcome.failure 400 "La raison doit contenir au moins 50 caractères", db)
      else
        let r := createPrivateInvite db user.id (sanitizeInputStr reason) now
        (RouteOutcome.success 201 r.1, r.2)

/-- `PATCH /api/admin/private-invites/:id`: requireRole(admin, moderator),
status-string validation, `storage.updatePrivateInvite` (404 only when it
returns no row, i.e. the id is absent), then a moderation-log entry. -/
def decideInviteRoute (db : DB) (sessionUserId : Option Nat) (inviteId : Nat)
    (status : String) (now : Nat) : RouteOutcome PrivateInvite × DB :=
  match requireRole db sessionUserId [Role.admin, Role.moderator] with
  | some resp => (RouteOutcome.failure resp.1 resp.2, db)
  | none =>
    if !(["approved", "rejected"].contains status) then
      (RouteOutcome.failure 400 "Statut invalide", db)
    else
      let st := if status = "approved" then InviteStatus.approved
                else InviteStatus.rejected
      match updatePrivateInvite db inviteId st (sessionUserId.getD 0) now with
      | (none, db1) => (RouteOutcome.failure 404 "Demande introuvable", db1)
      | (some invite, db1) =>
        (RouteOutcome.success 200 invite,
         createModerationLog db1
           { moderatorId := sessionUserId.getD 0, targetUserId := some invite.userId,
             action := if status = "approved" then "approve_invite"
                       else "reject_invite",
             reason := none, details := none } now)

/-! Response serialization for the user object (claims about the password
field). A serialized JSON object is a list of field-name/value pairs. -/

/-- A JSON value, as far as the user object needs. -/
inductive JsonVal where
  | str (s : String)
  | num (n : Int)
  | boolv (b : Bool)
  | null
deriving DecidableEq

/-- A nullable string column as JSON. -/
def optStr : Option String → JsonVal
  | none => JsonVal.null
  | some s => JsonVal.str s

/-- A nullable timestamp column as JSON. -/
def optNum : Option Nat → JsonVal
  | none => JsonVal.null
  | some n => JsonVal.num n

/-- The role enum as its wire string. -/
def roleStr : Role → String
  | Role.admin => "admin"
  | Role.moderator => "moderator"
  | Role.member => "member"
  | Role.new_user => "new_user"

/-- The full serialized user row, every column of the `users` table
included — what `res.json(user)` would send. -/
def userToRecord (u : User) : List (String × JsonVal) :=
  [("id", JsonVal.num u.id), ("username", JsonVal.str u.username),
   ("email", JsonVal.str u.email), ("password", JsonVal.str u.password),
   ("role", JsonVal.str (roleStr u.role)), ("avatar", optStr u.avatar),
   ("bio", optStr u.bio), ("postCount", JsonVal.num u.postCount),
   ("threadCount", JsonVal.num u.threadCount),
   ("isBanned", JsonVal.boolv u.isBanned), ("banReason", optStr u.banReason),
   ("hasPrivateAccess", JsonVal.boolv u.hasPrivateAccess),
   ("createdAt", JsonVal.num u.createdAt), ("lastActive", JsonVal.num u.lastActive)]

/-- The destructuring `const { password: _, ...safeUser } = user`: every
field of the record except `password`. -/
def omitPassword (r : List (String × JsonVal)) : List (String × JsonVal) :=
  r.filter (fun kv => !(kv.1 == "password"))

/-- The user object sent by `POST /api/auth/register` (201). -/
def registerResponseUser (u : User) : List (String × JsonVal) :=
  omitPassword (userToRecord u)

/-- The user object sent by `POST /api/auth/login` (200). -/
def loginResponseUser (u : User) : List (String × JsonVal) :=
  omitPassword (userToRecord u)

/-- The user object sent by `GET /api/auth/me` (200). -/
def meResponseUser (u : User) : List (String × JsonVal) :=
  omitPassword (userToRecord u)

/-- The body sent by `GET /api/admin/users`: every stored user mapped
through the same destructuring. -/
def adminUsersResponse (us : List User) : List (List (String × JsonVal)) :=
  us.map (fun u => omitPassword (userToRecord u))

/-- The user object sent by `PATCH /api/admin/users/:id/role` (200). -/
def roleUpdateResponseUser (u : User) : List (String × JsonVal) :=
  omitPassword (userToRecord u)

/-- The user object sent by `POST /api/admin/users/:id/ban` (200). -/
def banResponseUser (u : User) : List (String × JsonVal) :=
  omitPassword (userToRecord u)

/-! Frame lemmas: which tables each storage operation leaves untouched. -/

theorem updateCategoryStats_users (db : DB) (id : Nat) :
    (updateCategoryStats db id).users = db.users := rfl

theorem updateCategoryStats_threads (db : DB) (id : Nat) :
    (updateCategoryStats db id).threads = db.threads := rfl

theorem updateCategoryStats_posts (db : DB) (id : Nat) :
    (updateCategoryStats db id).posts = db.posts := rfl

theorem createPost_threads (db : DB) (p : InsertPost) (now : Nat) :
    (createPost db p now).2.threads = db.threads.map (fun (t : Thread) =>
      if t.id == p.threadId then
        { t with replyCount := t.replyCount + 1, lastReplyAt := some now,
                 lastReplyById := some p.authorId }
      else t) := by
  unfold createPost
  dsimp only
  split <;> rfl

theorem createPost_users (db : DB) (p : InsertPost) (now : Nat) :
    (createPost db p now).2.users = db.users.map (fun (u : User) =>
      if u.id == p.authorId then { u with postCount := u.postCount + 1 } else u) := by
  unfold createPost
  dsimp only
  split <;> rfl

theorem createThread_users (db : DB) (t : InsertThread) (now : Nat) :
    (createThread db t now).2.users = db.users.map (fun (u : User) =>
      if u.id == t.authorId then { u with threadCount := u.threadCount + 1 } else u) := rfl

theorem deletePost_users (db : DB) (i : Nat) : (deletePost db i).users = db.users := by
  unfold deletePost
  split
  · rfl
  · dsimp only
    split <;> rfl

theorem deleteThread_users (db : DB) (i : Nat) : (deleteThread db i).users = db.users := by
  unfold deleteThread
  split <;> rfl

theorem lastReplyProj_map (post : Post) (l : List Thread) :
    (l.map (fun (t : Thread) =>
        if t.id == post.threadId then { t with replyCount := t.replyCount - 1 } else t)).map
      (fun t => (t.id, t.lastReplyAt, t.lastReplyById)) =
    l.map (fun t => (t.id, t.lastReplyAt, t.lastReplyById)) := by
  induction l with
  | nil => rfl
  | cons a as ih =>
    simp only [List.map_cons, ih]
    by_cases h : a.id == post.threadId
    · simp [h]
    · simp [h]

theorem deletePost_lastReply (db : DB) (i : Nat) :
    (deletePost db i).threads.map (fun t => (t.id, t.lastReplyAt, t.lastReplyById)) =
      db.threads.map (fun t => (t.id, t.lastReplyAt, t.lastReplyById)) := by
  unfold deletePost
  split
  · rfl
  · rename_i post _
    dsimp only
    split
    · exact lastReplyProj_map post db.threads
    · exact lastReplyProj_map post db.threads

/-! Concrete rows for the executable scenarios. -/

/-- A member author. -/
def aliceU : User :=
  { id := 1, username := "alice", email := "alice@ex.com", password := "hash1",
    role := Role.member, avatar := none, bio := none, postCount := 0,
    threadCount := 0, isBanned := false, banReason := none,
    hasPrivateAccess := false, createdAt := 0, lastActive := 0 }

/-- A public category holding one thread. -/
def generalC : Category :=
  { id := 1, name := "general", description := none, slug := "general",
    icon := none, sortOrder := 0, isPrivate := false, threadCount := 1,
    postCount := 0 }

/-- A thread with no replies yet. -/
def topicT : Thread :=
  { id := 1, title := "t1", content := "c1", categoryId := 1, authorId := 1,
    isPinned := false, isLocked := false, viewCount := 0, replyCount := 0,
    lastReplyAt := none, lastReplyById := none, createdAt := 0, updatedAt := 0 }

/-- One member, one public category, one reply-free thread. -/
def baseDb : DB :=
  { users := [aliceU], categories := [generalC], threads := [topicT],
    posts := [], privateInvites := [], moderationLogs := [] }

/-- The insert for a reply by user 1 in thread 1. -/
def replyIns : InsertPost :=
  { content := "hello", threadId := 1, authorId := 1, parentId := none }

/-- `baseDb` after `createPost` of `replyIns` at time 5 (the new post gets
id 1). -/
def dbAfterReply : DB := (createPost baseDb replyIns 5).2

/-- `dbAfterReply` after `deletePost` of that post. -/
def dbAfterDelete : DB := deletePost dbAfterReply 1

/-- C2 counterexample: after creating one post in thread 1 and deleting it,
the thread has no remaining posts yet `lastReplyById` still names user 1 —
not null as the claim requires for a thread with no remaining posts. -/
theorem lastReply_stale_counterexample :
    dbAfterDelete.posts = [] ∧
    dbAfterDelete.threads.map (fun t => t.lastReplyById) = [some 1] := by decide

/-- C2 (amended): `createPost` sets the thread's `lastReplyAt`/`lastReplyById`
to the new post's time and author, but `deletePost` leaves every thread's
`lastReplyAt`/`lastReplyById` unchanged, so after a deletion they may
identify a deleted post rather than the latest remaining one (and are null
only when no post was ever created in the thread). -/
theorem lastReply_tracks_creations_only :
    (∀ (db : DB) (p : InsertPost) (now : Nat) (t : Thread),
        t ∈ (createPost db p now).2.threads → t.id = p.threadId →
        t.lastReplyAt = some now ∧ t.lastReplyById = some p.authorId) ∧
    (∀ (db : DB) (i : Nat),
        (deletePost db i).threads.map (fun t => (t.id, t.lastReplyAt, t.lastReplyById)) =
          db.threads.map (fun t => (t.id, t.lastReplyAt, t.lastReplyById))) := by
  constructor
  · intro db p now t hmem hid
    rw [createPost_threads] at hmem
    rcases List.mem_map.mp hmem with ⟨s, _, hst⟩
    by_cases h : (s.id == p.threadId) = true
    · rw [if_pos h] at hst
      rw [← hst]
      exact ⟨rfl, rfl⟩
    · rw [if_neg h] at hst
      subst hst
      simp only [beq_iff_eq] at h
      exact absurd hid h
  · intro db i
    exact deletePost_lastReply db i

/-- The thread row as it stands after the scenario's `createPost`. -/
def topicAfterReply : Thread :=
  { topicT with replyCount := 1, lastReplyAt := some 5, lastReplyById := some 1 }

/-- C2 witness: in the concrete scenario the thread row after `createPost`
is the updated one, and the theorem yields its last-reply fields. -/
theorem lastReply_tracks_creations_only_witness :
    topicAfterReply ∈ dbAfterReply.threads ∧
    topicAfterReply.lastReplyAt = some 5 ∧
    topicAfterReply.lastReplyById = some 1 := by
  have hmem : topicAfterReply ∈ dbAfterReply.threads := by decide
  have h := lastReply_tracks_creations_only.1 baseDb replyIns 5 _ hmem rfl
  exact ⟨hmem, h⟩

/-- C3 counterexample: after creating one post authored by user 1 and
deleting it, user 1's `postCount` is still 1 while the user has no live
posts — the counter does not equal the live count the claim requires. -/
theorem postCount_not_decremented_counterexample :
    dbAfterDelete.users.map (fun u => u.postCount) = [1] ∧
    dbAfterDelete.posts.filter (fun p => p.authorId == 1) = [] := by decide

/-- C3 (amended): `createThread` and `createPost` increment the author's
`threadCount`/`postCount`, but `deletePost` and `deleteThread` leave every
user row — counters included — unchanged, so the counters equal the number
of threads/posts ever authored, not the number of live ones. -/
theorem userCounters_count_creations_only :
    (∀ (db : DB) (t : InsertThread) (now : Nat),
        (createThread db t now).2.users = db.users.map (fun (u : User) =>
          if u.id == t.authorId then { u with threadCount := u.threadCount + 1 } else u)) ∧
    (∀ (db : DB) (p : InsertPost) (now : Nat),
        (createPost db p now).2.users = db.users.map (fun (u : User) =>
          if u.id == p.authorId then { u with postCount := u.postCount + 1 } else u)) ∧
    (∀ (db : DB) (i : Nat), (deletePost db i).users = db.users) ∧
    (∀ (db : DB) (i : Nat), (deleteThread db i).users = db.users) :=
  ⟨createThread_users, createPost_users, deletePost_users, deleteThread_users⟩

theorem password_not_mem_omit (r : List (String × JsonVal)) :
    "password" ∉ (omitPassword r).map Prod.fst := by
  intro h
  rcases List.mem_map.mp h with ⟨kv, hmem, hfst⟩
  have h2 := (List.mem_filter.mp hmem).2
  rw [hfst] at h2
  simp at h2

/-- C10: the success bodies of register, login, the current-user endpoint,
the admin user listing, the role change and the ban never carry the stored
`password` field — every user object is serialized through the
password-stripping destructuring. -/
theorem responses_never_contain_password :
    (∀ u : User, "password" ∉ (registerResponseUser u).map Prod.fst) ∧
    (∀ u : User, "password" ∉ (loginResponseUser u).map Prod.fst) ∧
    (∀ u : User, "password" ∉ (meResponseUser u).map Prod.fst) ∧
    (∀ (us : List User), ∀ r ∈ adminUsersResponse us,
        "password" ∉ r.map Prod.fst) ∧
    (∀ u : User, "password" ∉ (roleUpdateResponseUser u).map Prod.fst) ∧
    (∀ u : User, "password" ∉ (banResponseUser u).map Prod.fst) := by
  refine ⟨fun u => password_not_mem_omit _, fun u => password_not_mem_omit _,
    fun u => password_not_mem_omit _, ?_, fun u => password_not_mem_omit _,
    fun u => password_not_mem_omit _⟩
  intro us r hr
  rcases List.mem_map.mp hr with ⟨u, _, hu⟩
  rw [← hu]
  exact password_not_mem_omit _

/-- C10 witness: the admin listing of the one concrete user is covered by
the theorem. -/
theorem responses_never_contain_password_witness :
    omitPassword (userToRecord aliceU) ∈ adminUsersResponse [aliceU] ∧
    "password" ∉ (omitPassword (userToRecord aliceU)).map Prod.fst := by
  have hmem : omitPassword (userToRecord aliceU) ∈ adminUsersResponse [aliceU] := by
    exact List.mem_singleton.mpr rfl
  exact ⟨hmem, responses_never_contain_password.2.2.2.1 [aliceU] _ hmem⟩

/-- C4: any request presenting a session bound to a banned user — with any
method, any CSRF header and any handler, so in particular a session created
before the ban — is answered 403 by `checkBanned` with the session
destroyed, and the route handler never runs. -/
theorem bannedSession_rejected {α : Type} (db : DB) (sess : SessionData)
    (fresh method : String) (headerToken : Option String)
    (handler : DB → SessionData → α) (uid : Nat) (u : User)
    (hsid : sess.userId = some uid) (hu : getUser db uid = some u)
    (hban : u.isBanned = true) :
    apiPipeline db sess fresh method headerToken handler =
      (PipelineResult.early 403 "Votre compte a été banni", emptySession) := by
  have hcb : checkBanned db sess =
      (emptySession, some (403, "Votre compte a été banni")) := by
    simp [checkBanned, hsid, hu, hban]
  simp [apiPipeline, hcb]

/-- A user banned by an administrator. -/
def bobBanned : User :=
  { aliceU with id := 2, username := "bob", email := "bob@ex.com",
                isBanned := true, banReason := some "spam" }

/-- `baseDb` with the banned user added. -/
def bannedDb : DB := { baseDb with users := [aliceU, bobBanned] }

/-- A session created for user 2 (before the ban, as far as the stored
session can tell). -/
def bannedSess : SessionData := { userId := some 2, csrfToken := some "tok" }

/-- C4 witness: the banned user's concrete session is rejected and
destroyed. -/
theorem bannedSession_rejected_witness :
    bannedSess.userId = some 2 ∧ getUser bannedDb 2 = some bobBanned ∧
    bobBanned.isBanned = true ∧
    apiPipeline bannedDb bannedSess "f" "GET" none
        (fun (db : DB) (_ : SessionData) => db) =
      (PipelineResult.early 403 "Votre compte a été banni", emptySession) := by
  refine ⟨rfl, rfl, rfl, ?_⟩
  exact bannedSession_rejected bannedDb bannedSess "f" "GET" none
    (fun (db : DB) (_ : SessionData) => db) 2 bobBanned rfl rfl rfl

/-- C5: a state-changing request (POST/PATCH/DELETE) whose CSRF header is
absent or different from the session's stored token is answered 403 by the
middleware — with the handler never run, even for a fully valid,
non-banned session — while GET/HEAD/OPTIONS requests pass `csrfProtection`
whatever the header holds. -/
theorem csrf_blocks_before_handler :
    (∀ (α : Type) (db : DB) (sess : SessionData) (fresh method : String)
        (headerToken : Option String) (handler : DB → SessionData → α)
        (uid : Nat) (u : User),
        sess.userId = some uid → getUser db uid = some u → u.isBanned = false →
        (method = "POST" ∨ method = "PATCH" ∨ method = "DELETE") →
        headerToken ≠ (sessionWithToken sess fresh).csrfToken →
        apiPipeline db sess fresh method headerToken handler =
          (PipelineResult.early 403 "Token CSRF invalide",
           sessionWithToken sess fresh)) ∧
    (∀ (sess : SessionData) (fresh method : String) (headerToken : Option String),
        (method = "GET" ∨ method = "HEAD" ∨ method = "OPTIONS") →
        csrfProtection fresh method headerToken sess =
          (sessionWithToken sess fresh, none)) := by
  constructor
  · intro α db sess fresh method headerToken handler uid u hsid hu hban hm hneq
    have hcb : checkBanned db sess = (sess, none) := by
      simp [checkBanned, hsid, hu, hban]
    have hcsrf : csrfProtection fresh method headerToken sess =
        (sessionWithToken sess fresh, some (403, "Token CSRF invalide")) := by
      rcases hm with rfl | rfl | rfl <;>
      · cases headerToken with
        | none => simp [csrfProtection]
        | some t =>
          by_cases ht : t = ""
          · simp [csrfProtection, ht]
          · have hne2 : ¬(some t = (sessionWithToken sess fresh).csrfToken) := hneq
            simp [csrfProtection, ht, hne2]
    simp [apiPipeline, hcb, hcsrf]
  · intro sess fresh method headerToken hm
    rcases hm with rfl | rfl | rfl <;> simp [csrfProtection]

/-- A valid, non-banned session for user 1 with a stored token. -/
def validSess : SessionData := { userId := some 1, csrfToken := some "tok" }

/-- C5 witness: a concrete POST with a wrong header token is blocked before
the handler on a fully valid session, and a concrete GET passes without any
token. -/
theorem csrf_blocks_before_handler_witness :
    validSess.userId = some 1 ∧ getUser baseDb 1 = some aliceU ∧
    aliceU.isBanned = false ∧
    (some "bad" : Option String) ≠ (sessionWithToken validSess "fresh").csrfToken ∧
    apiPipeline baseDb validSess "fresh" "POST" (some "bad")
        (fun (db : DB) (_ : SessionData) => db) =
      (PipelineResult.early 403 "Token CSRF invalide",
       sessionWithToken validSess "fresh") ∧
    csrfProtection "fresh" "GET" none validSess =
      (sessionWithToken validSess "fresh", none) := by
  refine ⟨rfl, rfl, rfl, by decide, ?_, ?_⟩
  · exact csrf_blocks_before_handler.1 DB baseDb validSess "fresh" "POST"
      (some "bad") (fun (db : DB) (_ : SessionData) => db) 1 aliceU rfl rfl rfl
      (Or.inl rfl) (by decide)
  · exact csrf_blocks_before_handler.2 validSess "fresh" "GET" none (Or.inl rfl)

/-! Further frame lemmas for the route-level proofs. -/

theorem createModerationLog_posts (db : DB) (entry : InsertModerationLog) (now : Nat) :
    (createModerationLog db entry now).posts = db.posts := rfl

theorem deletePost_posts (db : DB) (i : Nat) (post : Post)
    (hfind : db.posts.find? (fun p => p.id == i) = some post) :
    (deletePost db i).posts = db.posts.filter (fun p => !(p.id == i)) := by
  unfold deletePost
  rw [hfind]
  dsimp only
  split <;> rfl

theorem deletePost_absent (db : DB) (i : Nat)
    (hfind : db.posts.find? (fun p => p.id == i) = none) : deletePost db i = db := by
  unfold deletePost
  rw [hfind]

theorem find?_filter_not (l : List Post) (i : Nat) :
    (l.filter (fun p => !(p.id == i))).find? (fun p => p.id == i) = none := by
  rw [List.find?_eq_none]
  intro x hx
  have h2 := (List.mem_filter.mp hx).2
  simp at h2 ⊢
  exact h2

theorem requireRole_pass (db : DB) (uid : Nat) (u : User)
    (hu : getUser db uid = some u)
    (hrole : u.role = Role.admin ∨ u.role = Role.moderator) :
    requireRole db (some uid) [Role.admin, Role.moderator] = none := by
  rcases hrole with h | h <;> simp [requireRole, hu, h, List.contains]

/-- A moderator. -/
def modU : User :=
  { aliceU with id := 3, username := "mika", email := "mika@ex.com",
                role := Role.moderator }

/-- `baseDb` with the moderator added (and still no posts). -/
def modDb : DB := { baseDb with users := [aliceU, modU] }

/-- C6 counterexample: with no post stored at all, the moderator's delete
of post id 7 reports success 200 — it does not fail `NotFound` as the
claim requires for an id that refers to no existing post. -/
theorem deletePost_missing_not_notFound_counterexample :
    modDb.posts = [] ∧
    (deletePostRoute modDb (some 3) 7 4).1 =
      RouteOutcome.success 200 "Message supprimé" := by
  exact ⟨rfl, rfl⟩

/-- C6 (amended): `deletePost` by a moderator-or-above always reports
success 200: when the id refers to no post it removes nothing — no
`NotFound` is reported, and a moderation-log entry is still written — and
when the post exists it succeeds with the post removed. -/
theorem deletePostRoute_always_ok (db : DB) (uid postId now : Nat) (u : User)
    (hu : getUser db uid = some u)
    (hrole : u.role = Role.admin ∨ u.role = Role.moderator) :
    (db.posts.find? (fun p => p.id == postId) = none →
      deletePostRoute db (some uid) postId now =
        (RouteOutcome.success 200 "Message supprimé",
         createModerationLog db
           { moderatorId := uid, targetUserId := none, action := "delete_post",
             reason := none, details := some ("Post ID: " ++ toString postId) } now)) ∧
    (∀ post, db.posts.find? (fun p => p.id == postId) = some post →
      (deletePostRoute db (some uid) postId now).1 =
        RouteOutcome.success 200 "Message supprimé" ∧
      (deletePostRoute db (some uid) postId now).2.posts.find?
        (fun p => p.id == postId) = none) := by
  have hreq := requireRole_pass db uid u hu hrole
  constructor
  · intro hfind
    simp [deletePostRoute, hreq, deletePost_absent db postId hfind]
  · intro post hfind
    constructor
    · simp [deletePostRoute, hreq]
    · have hposts : (deletePostRoute db (some uid) postId now).2.posts =
          db.posts.filter (fun p => !(p.id == postId)) := by
        simp [deletePostRoute, hreq, createModerationLog_posts,
          deletePost_posts db postId post hfind]
      rw [hposts]
      exact find?_filter_not db.posts postId

/-- The post stored for the C6 witness. -/
def post1 : Post :=
  { id := 1, content := "hello", threadId := 1, authorId := 1, parentId := none,
    isEdited := false, createdAt := 5, updatedAt := 5 }

/-- `modDb` with one post stored. -/
def modDbWithPost : DB := { modDb with posts := [post1] }

/-- C6 witness: deleting the existing concrete post succeeds and removes
it. -/
theorem deletePostRoute_always_ok_witness :
    getUser modDbWithPost 3 = some modU ∧
    (modU.role = Role.admin ∨ modU.role = Role.moderator) ∧
    modDbWithPost.posts.find? (fun p => p.id == 1) = some post1 ∧
    (deletePostRoute modDbWithPost (some 3) 1 9).1 =
      RouteOutcome.success 200 "Message supprimé" ∧
    (deletePostRoute modDbWithPost (some 3) 1 9).2.posts.find?
      (fun p => p.id == 1) = none := by
  refine ⟨rfl, Or.inr rfl, rfl, ?_, ?_⟩
  · exact ((deletePostRoute_always_ok modDbWithPost 3 1 9 modU rfl
      (Or.inr rfl)).2 post1 rfl).1
  · exact ((deletePostRoute_always_ok modDbWithPost 3 1 9 modU rfl
      (Or.inr rfl)).2 post1 rfl).2

/-! C1: the invite decision route. -/

theorem updatePrivateInvite_absent (db : DB) (inviteId : Nat) (st : InviteStatus)
    (rid now : Nat)
    (hfind : db.privateInvites.find? (fun i => i.id == inviteId) = none) :
    updatePrivateInvite db inviteId st rid now = (none, db) := by
  unfold updatePrivateInvite
  rw [hfind]

theorem updatePrivateInvite_present (db : DB) (inviteId : Nat) (st : InviteStatus)
    (rid now : Nat) (inv : PrivateInvite)
    (hfind : db.privateInvites.find? (fun i => i.id == inviteId) = some inv) :
    (updatePrivateInvite db inviteId st rid now).1 =
      some { inv with status := st, reviewedById := some rid, reviewedAt := some now } := by
  unfold updatePrivateInvite
  rw [hfind]

/-- C1 (amended): `decide` fails `NotFound` — leaving the state unchanged —
only when the request id is absent; when the request exists, whatever its
current status (in particular already-decided), the call succeeds with 200
and re-applies the decision, overwriting the reviewer and review time (and
on `approved` re-granting access, appending another audit entry). -/
theorem decideInvite_notFound_iff_absent (db : DB) (uid inviteId : Nat)
    (status : String) (now : Nat) (u : User)
    (hu : getUser db uid = some u)
    (hrole : u.role = Role.admin ∨ u.role = Role.moderator)
    (hst : status = "approved" ∨ status = "rejected") :
    (db.privateInvites.find? (fun i => i.id == inviteId) = none →
      decideInviteRoute db (some uid) inviteId status now =
        (RouteOutcome.failure 404 "Demande introuvable", db)) ∧
    (∀ inv, db.privateInvites.find? (fun i => i.id == inviteId) = some inv →
      (decideInviteRoute db (some uid) inviteId status now).1 =
        RouteOutcome.success 200
          { inv with status := (if status = "approved" then InviteStatus.approved
                                else InviteStatus.rejected),
                     reviewedById := some uid, reviewedAt := some now }) := by
  have hreq := requireRole_pass db uid u hu hrole
  rcases hst with rfl | rfl
  · constructor
    · intro hfind
      simp [decideInviteRoute, hreq,
        updatePrivateInvite_absent db inviteId InviteStatus.approved uid now hfind]
    · intro inv hfind
      have hup := updatePrivateInvite_present db inviteId InviteStatus.approved
        uid now inv hfind
      rcases hupeq : updatePrivateInvite db inviteId InviteStatus.approved uid now
        with ⟨r, db1⟩
      rw [hupeq] at hup
      simp only at hup
      subst hup
      simp [decideInviteRoute, hreq, hupeq]
  · constructor
    · intro hfind
      simp [decideInviteRoute, hreq,
        updatePrivateInvite_absent db inviteId InviteStatus.rejected uid now hfind]
    · intro inv hfind
      have hup := updatePrivateInvite_present db inviteId InviteStatus.rejected
        uid now inv hfind
      rcases hupeq : updatePrivateInvite db inviteId InviteStatus.rejected uid now
        with ⟨r, db1⟩
      rw [hupeq] at hup
      simp only at hup
      subst hup
      simp [decideInviteRoute, hreq, hupeq]

/-- A pending invite from user 1. -/
def pendingInv : PrivateInvite :=
  { id := 1, userId := 1, reason := "r", status := InviteStatus.pending,
    reviewedById := none, reviewedAt := none, createdAt := 0 }

/-- `baseDb` with the moderator and user 1's pending invite. -/
def pendingDb : DB :=
  { baseDb with users := [aliceU, modU], privateInvites := [pendingInv] }

/-- C1 witness: the moderator approving the concrete pending request gets
200 with the decided row; the theorem applied at this state. -/
theorem decideInvite_notFound_iff_absent_witness :
    getUser pendingDb 3 = some modU ∧
    pendingDb.privateInvites.find? (fun i => i.id == 1) = some pendingInv ∧
    (decideInviteRoute pendingDb (some 3) 1 "approved" 7).1 =
      RouteOutcome.success 200
        { pendingInv with status := InviteStatus.approved,
                          reviewedById := some 3, reviewedAt := some 7 } := by
  refine ⟨rfl, rfl, ?_⟩
  exact (decideInvite_notFound_iff_absent pendingDb 3 1 "approved" 7 modU rfl
    (Or.inr rfl) (Or.inl rfl)).2 pendingInv rfl

/-- User 1 with the grant already set (as after an approval). -/
def aliceGranted : User := { aliceU with hasPrivateAccess := true }

/-- An invite that was already decided (approved). -/
def decidedInv : PrivateInvite :=
  { id := 1, userId := 1, reason := "r", status := InviteStatus.approved,
    reviewedById := some 3, reviewedAt := some 3, createdAt := 0 }

/-- A state where request 1 was already approved. -/
def decidedDb : DB :=
  { baseDb with users := [aliceGranted, modU], privateInvites := [decidedInv] }

/-- C1 counterexample: a second `decide` call on the already-decided request
id 1 does not fail `NotFound` — it succeeds with 200, re-applies the
decision (new review time) and changes the state (another audit entry). -/
theorem decide_replay_succeeds_counterexample :
    decidedInv.status = InviteStatus.approved ∧
    (decideInviteRoute decidedDb (some 3) 1 "approved" 10).1 =
      RouteOutcome.success 200
        { decidedInv with reviewedById := some 3, reviewedAt := some 10 } ∧
    (decideInviteRoute decidedDb (some 3) 1 "approved" 10).2 ≠ decidedDb := by
  refine ⟨rfl, rfl, ?_⟩
  decide

/-! C8: locked threads and `createPost`. -/

/-- A locked thread in the public category. -/
def lockedT : Thread := { topicT with id := 2, isLocked := true }

/-- A `new_user`. -/
def newbieU : User :=
  { aliceU with id := 4, username := "nino", email := "nino@ex.com",
                role := Role.new_user }

/-- A state holding the locked thread, a `new_user` and the moderator. -/
def lockedDb : DB :=
  { baseDb with users := [aliceU, newbieU, modU], threads := [topicT, lockedT] }

/-- C8 (amended): `createPost` on a locked thread fails and leaves the
state unchanged for every user: with the `Locked` error for any user whose
role is not `new_user` — moderators and administrators included, no role
bypasses the lock — while a `new_user` fails with the role `Forbidden`
error, the role check running before the lock check. -/
theorem lockedThread_blocks_posts (db : DB) (uid threadId : Nat)
    (content : String) (now : Nat) (u : User) (th : Thread)
    (hu : getUser db uid = some u) (ht : getThread db threadId = some th)
    (hlock : th.isLocked = true) :
    (u.role ≠ Role.new_user →
      createPostRoute db (some uid) threadId content now =
        (RouteOutcome.failure 403 "Cette discussion est verrouillée", db)) ∧
    (u.role = Role.new_user →
      createPostRoute db (some uid) threadId content now =
        (RouteOutcome.failure 403
          "Les nouveaux utilisateurs ne peuvent pas répondre", db)) := by
  constructor
  · intro hne
    simp [createPostRoute, hu, hne, ht, hlock]
  · intro heq
    simp [createPostRoute, hu, heq]

/-- C8 witness: the concrete moderator hitting the locked thread fails with
the `Locked` error and the state is unchanged. -/
theorem lockedThread_blocks_posts_witness :
    getUser lockedDb 3 = some modU ∧ getThread lockedDb 2 = some lockedT ∧
    lockedT.isLocked = true ∧ modU.role ≠ Role.new_user ∧
    createPostRoute lockedDb (some 3) 2 "hi" 6 =
      (RouteOutcome.failure 403 "Cette discussion est verrouillée", lockedDb) := by
  refine ⟨rfl, rfl, rfl, by decide, ?_⟩
  exact (lockedThread_blocks_posts lockedDb 3 2 "hi" 6 modU lockedT rfl rfl
    rfl).1 (by decide)

/-- C8 counterexample: the `new_user` posting to the locked thread is
refused with the role error, not the `Locked` error the claim promises for
every user. -/
theorem locked_new_user_gets_role_error_counterexample :
    newbieU.role = Role.new_user ∧ lockedT.isLocked = true ∧
    (createPostRoute lockedDb (some 4) 2 "hi" 6).1 =
      RouteOutcome.failure 403 "Les nouveaux utilisateurs ne peuvent pas répondre" ∧
    ("Les nouveaux utilisateurs ne peuvent pas répondre" : String) ≠
      "Cette discussion est verrouillée" := by
  exact ⟨rfl, rfl, rfl, by decide⟩

/-! C7: the private-access submission route. -/

theorem foldl_pickLater_spec (l : List PrivateInvite) : ∀ (j : PrivateInvite),
    ∃ r, List.foldl pickLater (some j) l = some r ∧ r ∈ j :: l ∧
      ∀ q ∈ j :: l, q.createdAt ≤ r.createdAt := by
  induction l with
  | nil =>
    intro j
    refine ⟨j, rfl, List.mem_cons_self j [], ?_⟩
    intro q hq
    rcases List.mem_cons.mp hq with rfl | hq2
    · exact Nat.le_refl _
    · cases hq2
  | cons a as ih =>
    intro j
    have hstep : List.foldl pickLater (some j) (a :: as) =
        List.foldl pickLater (pickLater (some j) a) as := rfl
    by_cases hja : j.createdAt < a.createdAt
    · have hpick : pickLater (some j) a = some a := by simp [pickLater, hja]
      rcases ih a with ⟨r, hr1, hr2, hr3⟩
      refine ⟨r, ?_, ?_, ?_⟩
      · rw [hstep, hpick]; exact hr1
      · rcases List.mem_cons.mp hr2 with rfl | h2
        · exact List.mem_cons_of_mem j (List.mem_cons_self r as)
        · exact List.mem_cons_of_mem j (List.mem_cons_of_mem a h2)
      · intro q hq
        rcases List.mem_cons.mp hq with rfl | hq2
        · exact Nat.le_trans (Nat.le_of_lt hja) (hr3 a (List.mem_cons_self a as))
        · exact hr3 q hq2
    · have hpick : pickLater (some j) a = some j := by simp [pickLater, hja]
      rcases ih j with ⟨r, hr1, hr2, hr3⟩
      refine ⟨r, ?_, ?_, ?_⟩
      · rw [hstep, hpick]; exact hr1
      · rcases List.mem_cons.mp hr2 with rfl | h2
        · exact List.mem_cons_self r (a :: as)
        · exact List.mem_cons_of_mem j (List.mem_cons_of_mem a h2)
      · intro q hq
        rcases List.mem_cons.mp hq with rfl | hq2
        · exact hr3 q (List.mem_cons_self q as)
        · rcases List.mem_cons.mp hq2 with rfl | hq3
          · exact Nat.le_trans (Nat.le_of_not_lt hja) (hr3 j (List.mem_cons_self j as))
          · exact hr3 q (List.mem_cons_of_mem j hq3)

theorem latestByCreatedAt_strictmax (l : List PrivateInvite) (p : PrivateInvite)
    (hp : p ∈ l) (hmax : ∀ q ∈ l, q ≠ p → q.createdAt < p.createdAt) :
    latestByCreatedAt l = some p := by
  cases l with
  | nil => cases hp
  | cons a as =>
    have h0 : latestByCreatedAt (a :: as) = List.foldl pickLater (some a) as := rfl
    rcases foldl_pickLater_spec as a with ⟨r, hr1, hr2, hr3⟩
    have hple : p.createdAt ≤ r.createdAt := hr3 p hp
    by_cases hrp : r = p
    · rw [h0, hr1, hrp]
    · exact absurd (Nat.lt_of_le_of_lt hple (hmax r hr2 hrp)) (Nat.lt_irrefl _)

/-- C7: submitting a private-access request fails `Conflict` when the user
already has the grant, or when a `Pending` request exists for the user (the
user's most recent request — in every reachable state the pending request,
being the last created, is strictly the newest); fails `Validation` when
the trimmed justification is under 50 characters; otherwise succeeds
creating a request whose status is `Pending`; and a new submission after a
`Rejected` decision is permitted. -/
theorem submitInvite_behaviour (db : DB) (uid : Nat) (u : User) (reason : String)
    (now : Nat) (hu : getUser db uid = some u) :
    (u.hasPrivateAccess = true →
      submitInviteRoute db (some uid) reason now =
        (RouteOutcome.failure 400 "Vous avez déjà accès", db)) ∧
    (u.hasPrivateAccess = false →
      ∀ p ∈ db.privateInvites, p.userId = u.id → p.status = InviteStatus.pending →
      (∀ q ∈ db.privateInvites, q.userId = u.id → q ≠ p →
        q.createdAt < p.createdAt) →
      submitInviteRoute db (some uid) reason now =
        (RouteOutcome.failure 400 "Vous avez déjà une demande en cours", db)) ∧
    (u.hasPrivateAccess = false →
      (getPrivateInviteByUser db u.id).any
        (fun e => e.status == InviteStatus.pending) = false →
      (jsTrimStr reason).length < 50 →
      submitInviteRoute db (some uid) reason now =
        (RouteOutcome.failure 400 "La raison doit contenir au moins 50 caractères", db)) ∧
    (u.hasPrivateAccess = false →
      (getPrivateInviteByUser db u.id).any
        (fun e => e.status == InviteStatus.pending) = false →
      50 ≤ (jsTrimStr reason).length →
      submitInviteRoute db (some uid) reason now =
        (RouteOutcome.success 201
          (createPrivateInvite db u.id (sanitizeInputStr reason) now).1,
         (createPrivateInvite db u.id (sanitizeInputStr reason) now).2) ∧
      (createPrivateInvite db u.id (sanitizeInputStr reason) now).1.status =
        InviteStatus.pending) ∧
    (u.hasPrivateAccess = false →
      ∀ e, getPrivateInviteByUser db u.id = some e →
      e.status = InviteStatus.rejected →
      50 ≤ (jsTrimStr reason).length →
      (submitInviteRoute db (some uid) reason now).1 =
        RouteOutcome.success 201
          (createPrivateInvite db u.id (sanitizeInputStr reason) now).1) := by
  refine ⟨?_, ?_, ?_, ?_, ?_⟩
  · intro hg
    simp [submitInviteRoute, hu, hg]
  · intro hgf p hp hpuid hps hmax
    have hmem : p ∈ db.privateInvites.filter (fun i => i.userId == u.id) :=
      List.mem_filter.mpr ⟨hp, by simp [hpuid]⟩
    have hlatest : getPrivateInviteByUser db u.id = some p := by
      unfold getPrivateInviteByUser
      refine latestByCreatedAt_strictmax _ p hmem ?_
      intro q hq hne
      have hq2 := List.mem_filter.mp hq
      have hquid : q.userId = u.id := by
        have := hq2.2
        simpa using this
      exact hmax q hq2.1 hquid hne
    simp [submitInviteRoute, hu, hgf, hlatest, hps]
  · intro hgf hpend hlen
    simp [submitInviteRoute, hu, hgf, hpend, hlen]
  · intro hgf hpend hlen
    have hnlt : ¬((jsTrimStr reason).length < 50) := Nat.not_lt.mpr hlen
    constructor
    · simp [submitInviteRoute, hu, hgf, hpend, hnlt]
    · rfl
  · intro hgf e hlatest hrej hlen
    have hnlt : ¬((jsTrimStr reason).length < 50) := Nat.not_lt.mpr hlen
    have hpend : (getPrivateInviteByUser db u.id).any
        (fun e => e.status == InviteStatus.pending) = false := by
      rw [hlatest]
      simp [hrej]
    simp [submitInviteRoute, hu, hgf, hpend, hnlt]

/-- A 60-character justification (no surrounding whitespace). -/
def reason60 : String :=
  "jaimerais participer a la section privee depuis longtemps 1"

/-- C7 witness: user 1, with no grant and no prior request, submitting the
60-character justification succeeds with a `Pending` request. -/
theorem submitInvite_behaviour_witness :
    getUser baseDb 1 = some aliceU ∧ aliceU.hasPrivateAccess = false ∧
    (getPrivateInviteByUser baseDb aliceU.id).any
      (fun e => e.status == InviteStatus.pending) = false ∧
    50 ≤ (jsTrimStr reason60).length ∧
    (submitInviteRoute baseDb (some 1) reason60 3).1 =
      RouteOutcome.success 201
        (createPrivateInvite baseDb aliceU.id (sanitizeInputStr reason60) 3).1 ∧
    (createPrivateInvite baseDb aliceU.id (sanitizeInputStr reason60) 3).1.status =
      InviteStatus.pending := by
  have h := submitInvite_behaviour baseDb 1 aliceU reason60 3 rfl
  have h4 := h.2.2.2.1 rfl rfl (by decide)
  refine ⟨rfl, rfl, rfl, by decide, ?_, h4.2⟩
  rw [h4.1]

end Forum
